import Mathlib

/-!
Shallow embedding of the CSS selector builder from `src/selector.js` and the
`cssSelectorBuilder` facade module.

The JavaScript `Selector` class is modelled as a structure carrying the same
fields; the mutating methods become pure state-passing functions.  JavaScript
exceptions are modelled with `Except (String × Selector)`: an error carries the
thrown message together with the state of the object at the moment of the
throw, so "no mutation occurred" is the statement that the carried state equals
the pre-call state.  `stringify` returns the rendered string together with the
post-call state.
-/

set_option autoImplicit false

/-- Fragment kinds, the keys of the `selectorsWeight` map in `selector.js`
(`''`, `element`, `id`, `class`, `attribute`, `pseudo-class`,
`pseudo-element`).  `empty` stands for the default key `''`, `cls` for the
keyword `class` and `attrKind` for `attribute`. -/
inductive SelType where
  | empty
  | element
  | id
  | cls
  | attrKind
  | pseudoClass
  | pseudoElement
deriving DecidableEq, Repr

/-- Weights from the `selectorsWeight` map of `Selector` (`src/selector.js`
lines 7-15): `'': 0, element: 1, id: 10, class: 20, attribute: 30,
'pseudo-class': 40, 'pseudo-element': 50`. -/
def selectorsWeight : SelType → Nat
  | SelType.empty => 0
  | SelType.element => 1
  | SelType.id => 10
  | SelType.cls => 20
  | SelType.attrKind => 30
  | SelType.pseudoClass => 40
  | SelType.pseudoElement => 50

/-- Mutable fields of the JavaScript `Selector` class (`src/selector.js`
lines 2-17): the fragment strings, the three singleton flags and the parallel
list of appended ranks. -/
structure Selector where
  selectors : List String
  isIdExist : Bool
  isElExist : Bool
  isPseudoElExist : Bool
  selectorsTypes : List Nat
deriving DecidableEq, Repr

/-- Result of a method call: either the updated selector, or a thrown message
paired with the state of the object at the moment of the throw. -/
abbrev SelRes := Except (String × Selector) Selector

/-- Message thrown by `Selector.isRightOrder` (`src/selector.js` line 45). -/
def orderErrorMsg : String :=
  "Selector parts should be arranged in the following order: element, id, class, attribute, pseudo-class, pseudo-element"

/-- Message thrown by the singleton methods of `SelectorElem`
(`part_000` lines 132, 142, 167). -/
def duplicateErrorMsg : String :=
  "Element, id and pseudo-element should not occur more then one time inside the selector"

/-- Model of `Selector.isRightOrder(type)` (`src/selector.js` lines 37-49):
returns `true` when `selectorsTypes` is empty; otherwise compares the weight
of `type` with the last recorded weight (`selectorsTypes[length - 1]`) and
throws on a strict decrease. -/
def Selector.isRightOrder (s : Selector) (type : SelType) : Except (String × Selector) Bool :=
  if s.selectorsTypes.length = 0 then
    Except.ok true
  else
    if selectorsWeight type < s.selectorsTypes.getLastD 0 then
      Except.error (orderErrorMsg, s)
    else
      Except.ok true

/-- Model of `Selector.add(val, type = '')` (`src/selector.js` lines 19-26):
when `isRightOrder` returns `true`, pushes `val` onto `selectors` and the
weight of `type` onto `selectorsTypes`; a thrown error propagates.  Callers
that omit `type` pass `SelType.empty` (the JavaScript default `''`). -/
def Selector.add (s : Selector) (val : String) (type : SelType) : SelRes :=
  match s.isRightOrder type with
  | Except.error err => Except.error err
  | Except.ok b =>
    if b then
      Except.ok { s with
        selectors := s.selectors ++ [val],
        selectorsTypes := s.selectorsTypes ++ [selectorsWeight type] }
    else
      Except.ok s

/-- Model of `Selector.stringify()` (`src/selector.js` lines 28-35): joins the
fragments with no separator, then clears `selectors` and the three singleton
flags.  The source does not touch `selectorsTypes`. -/
def Selector.stringify (s : Selector) : String × Selector :=
  (String.join s.selectors,
   { s with
      selectors := [],
      isIdExist := false,
      isElExist := false,
      isPseudoElExist := false })

/-- Model of `SelectorElem.element(value)` (`part_000` lines 127-135): throws
the duplicate message when `isElExist` is already set, otherwise appends the
bare value with kind `element` and sets the flag (any error from `add`
propagates before the flag is set). -/
def Selector.element (s : Selector) (value : String) : SelRes :=
  if !s.isElExist then
    match s.add value SelType.element with
    | Except.error err => Except.error err
    | Except.ok s' => Except.ok { s' with isElExist := true }
  else
    Except.error (duplicateErrorMsg, s)

/-- Model of `SelectorElem.id(value)` (`part_000` lines 137-145): throws the
duplicate message when `isIdExist` is already set, otherwise appends
`'#' + value` with kind `id` and sets the flag. -/
def Selector.id (s : Selector) (value : String) : SelRes :=
  if !s.isIdExist then
    match s.add ("#" ++ value) SelType.id with
    | Except.error err => Except.error err
    | Except.ok s' => Except.ok { s' with isIdExist := true }
  else
    Except.error (duplicateErrorMsg, s)

/-- Model of `SelectorElem.class(value)` (`part_000` lines 147-150): appends
`'.' + value` with kind `class` (named `cls` here because `class` is a Lean
keyword). -/
def Selector.cls (s : Selector) (value : String) : SelRes :=
  s.add ("." ++ value) SelType.cls

/-- Model of `SelectorElem.attr(value)` (`part_000` lines 152-155): appends
`'[' + value + ']'` with kind `attribute`. -/
def Selector.attr (s : Selector) (value : String) : SelRes :=
  s.add ("[" ++ value ++ "]") SelType.attrKind

/-- Model of `SelectorElem.pseudoClass(value)` (`part_000` lines 157-160):
appends `':' + value` with kind `pseudo-class`. -/
def Selector.pseudoClass (s : Selector) (value : String) : SelRes :=
  s.add (":" ++ value) SelType.pseudoClass

/-- Model of `SelectorElem.pseudoElement(value)` (`part_000` lines 162-170):
throws the duplicate message when `isPseudoElExist` is already set, otherwise
appends `'::' + value` with kind `pseudo-element` and sets the flag. -/
def Selector.pseudoElement (s : Selector) (value : String) : SelRes :=
  if !s.isPseudoElExist then
    match s.add ("::" ++ value) SelType.pseudoElement with
    | Except.error err => Except.error err
    | Except.ok s' => Except.ok { s' with isPseudoElExist := true }
  else
    Except.error (duplicateErrorMsg, s)

/-- State produced by `new SelectorElem()`: the constructor of `Selector`
(`src/selector.js` lines 2-17) — empty lists, all flags false. -/
def SelectorElem.new : Selector :=
  { selectors := [],
    isIdExist := false,
    isElExist := false,
    isPseudoElExist := false,
    selectorsTypes := [] }

/-- Model of `cssSelectorBuilder.element(value)` (`part_000` lines 174-176). -/
def cssSelectorBuilder.element (value : String) : SelRes :=
  SelectorElem.new.element value

/-- Model of `cssSelectorBuilder.id(value)` (`part_000` lines 178-180). -/
def cssSelectorBuilder.id (value : String) : SelRes :=
  SelectorElem.new.id value

/-- Model of `cssSelectorBuilder.class(value)` (`part_000` lines 182-184). -/
def cssSelectorBuilder.cls (value : String) : SelRes :=
  SelectorElem.new.cls value

/-- Model of `cssSelectorBuilder.attr(value)` (`part_000` lines 186-188). -/
def cssSelectorBuilder.attr (value : String) : SelRes :=
  SelectorElem.new.attr value

/-- Model of `cssSelectorBuilder.pseudoClass(value)` (`part_000`
lines 190-192). -/
def cssSelectorBuilder.pseudoClass (value : String) : SelRes :=
  SelectorElem.new.pseudoClass value

/-- Model of `cssSelectorBuilder.pseudoElement(value)` (`part_000`
lines 194-196). -/
def cssSelectorBuilder.pseudoElement (value : String) : SelRes :=
  SelectorElem.new.pseudoElement value

/-- Model of `cssSelectorBuilder.combine(selector1, combinator, selector2)`
(`part_000` lines 198-203): stringifies both operands (which also resets
them), then adds the single fragment `str1 + ' ' + combinator + ' ' + str2`
to a fresh `SelectorElem` with the default kind `''`.  The result triple is
(the new builder, the reset first operand, the reset second operand); the
operand components record the mutation that `stringify()` performs on the
arguments in the JavaScript source. -/
def cssSelectorBuilder.combine (selector1 : Selector) (combinator : String)
    (selector2 : Selector) : SelRes × Selector × Selector :=
  let (str1, s1) := selector1.stringify
  let (str2, s2) := selector2.stringify
  (SelectorElem.new.add (str1 ++ " " ++ combinator ++ " " ++ str2) SelType.empty, s1, s2)

/-- One fluent fragment call on a builder, with its argument string: the six
instance methods of `SelectorElem` (`part_000` lines 126-171). -/
inductive FragCall where
  | element (v : String)
  | id (v : String)
  | cls (v : String)
  | attr (v : String)
  | pseudoClass (v : String)
  | pseudoElement (v : String)
deriving DecidableEq, Repr

/-- Dispatch of a `FragCall` to the corresponding `Selector` method. -/
def applyCall (s : Selector) : FragCall → SelRes
  | FragCall.element v => s.element v
  | FragCall.id v => s.id v
  | FragCall.cls v => s.cls v
  | FragCall.attr v => s.attr v
  | FragCall.pseudoClass v => s.pseudoClass v
  | FragCall.pseudoElement v => s.pseudoElement v

/-- Run a sequence of fluent calls left to right, propagating any thrown
error, as a JavaScript method chain does. -/
def applyCalls (s : Selector) : List FragCall → SelRes
  | [] => Except.ok s
  | c :: cs =>
    match applyCall s c with
    | Except.error err => Except.error err
    | Except.ok s' => applyCalls s' cs

/-- Kind of the fragment a `FragCall` appends, as passed to `add` by the
corresponding method. -/
def FragCall.kind : FragCall → SelType
  | FragCall.element _ => SelType.element
  | FragCall.id _ => SelType.id
  | FragCall.cls _ => SelType.cls
  | FragCall.attr _ => SelType.attrKind
  | FragCall.pseudoClass _ => SelType.pseudoClass
  | FragCall.pseudoElement _ => SelType.pseudoElement

/-- Rank of a `FragCall`: the weight of its kind. -/
def FragCall.rank (c : FragCall) : Nat :=
  selectorsWeight c.kind

/-- Formatted fragment string a `FragCall` appends: the sigil application
performed by each method of `SelectorElem` (`part_000` lines 126-171). -/
def FragCall.fmt : FragCall → String
  | FragCall.element v => v
  | FragCall.id v => "#" ++ v
  | FragCall.cls v => "." ++ v
  | FragCall.attr v => "[" ++ v ++ "]"
  | FragCall.pseudoClass v => ":" ++ v
  | FragCall.pseudoElement v => "::" ++ v

/-- True for the three kinds that have no singleton flag: `class`, `attr`
and `pseudoClass`. -/
def FragCall.isNonSingleton : FragCall → Bool
  | FragCall.cls _ => true
  | FragCall.attr _ => true
  | FragCall.pseudoClass _ => true
  | _ => false

/-! Helper lemmas about `Selector.add`. -/

/-- Joining two fragments concatenates them. -/
theorem string_join_pair (x y : String) : String.join [x, y] = x ++ y := rfl

/-- When the last recorded rank (if any) is at most the weight of `type`,
`add` succeeds and pushes the fragment and its weight. -/
theorem Selector.add_of_last_le (s : Selector) (val : String) (type : SelType)
    (h : ∀ p ∈ s.selectorsTypes.getLast?, p ≤ selectorsWeight type) :
    s.add val type = Except.ok { s with
      selectors := s.selectors ++ [val],
      selectorsTypes := s.selectorsTypes ++ [selectorsWeight type] } := by
  by_cases h0 : s.selectorsTypes.length = 0
  · simp [Selector.add, Selector.isRightOrder, h0]
  · have hne : s.selectorsTypes ≠ [] := by
      intro hnil
      exact h0 (by simp [hnil])
    obtain ⟨p, hp⟩ := Option.isSome_iff_exists.mp (List.getLast?_isSome.mpr hne)
    have hle : p ≤ selectorsWeight type := h p hp
    simp [Selector.add, Selector.isRightOrder, h0, hp, Nat.not_lt.mpr hle]

/-- When the last recorded rank strictly exceeds the weight of `type`, `add`
throws the ordering message and the carried state is the pre-call state. -/
theorem Selector.add_of_lt (s : Selector) (val : String) (type : SelType) (p : Nat)
    (hp : s.selectorsTypes.getLast? = some p) (hlt : selectorsWeight type < p) :
    s.add val type = Except.error (orderErrorMsg, s) := by
  have hne : s.selectorsTypes ≠ [] := by
    intro hnil
    rw [hnil] at hp
    exact Option.noConfusion hp
  have h0 : ¬ s.selectorsTypes.length = 0 := by
    simpa using hne
  simp [Selector.add, Selector.isRightOrder, h0, hp, hlt]

/-- Every error thrown by `add` carries the ordering message and the
unchanged pre-call state. -/
theorem Selector.add_error_msg (s : Selector) (val : String) (type : SelType)
    (e : String) (t : Selector) (h : s.add val type = Except.error (e, t)) :
    e = orderErrorMsg ∧ t = s := by
  by_cases h0 : s.selectorsTypes.length = 0
  · simp [Selector.add, Selector.isRightOrder, h0] at h
  · have hne : s.selectorsTypes ≠ [] := by
      simpa using h0
    obtain ⟨p, hp⟩ := Option.isSome_iff_exists.mp (List.getLast?_isSome.mpr hne)
    by_cases hlt : selectorsWeight type < p
    · simp [Selector.add, Selector.isRightOrder, h0, hp, hlt] at h
      exact ⟨h.1.symm, h.2.symm⟩
    · simp [Selector.add, Selector.isRightOrder, h0, hp, hlt] at h

/-- Non-singleton calls dispatch directly to `add` with their formatted
fragment and kind. -/
theorem applyCall_nonsingleton (s : Selector) (c : FragCall)
    (h : c.isNonSingleton = true) : applyCall s c = s.add c.fmt c.kind := by
  cases c with
  | element v => simp [FragCall.isNonSingleton] at h
  | id v => simp [FragCall.isNonSingleton] at h
  | cls v => rfl
  | attr v => rfl
  | pseudoClass v => rfl
  | pseudoElement v => simp [FragCall.isNonSingleton] at h

/-- Running a sequence of non-singleton calls with non-decreasing ranks, the
first of which is admissible after the ranks already recorded, succeeds and
appends exactly the formatted fragments and their ranks. -/
theorem applyCalls_nonsingleton (calls : List FragCall) (s : Selector)
    (hns : ∀ c ∈ calls, c.isNonSingleton = true)
    (hord : List.Chain' (fun a b => a ≤ b) (calls.map FragCall.rank))
    (hfirst : ∀ p ∈ s.selectorsTypes.getLast?, ∀ c ∈ calls.head?, p ≤ c.rank) :
    applyCalls s calls = Except.ok { s with
      selectors := s.selectors ++ calls.map FragCall.fmt,
      selectorsTypes := s.selectorsTypes ++ calls.map FragCall.rank } := by
  induction calls generalizing s with
  | nil => simp [applyCalls]
  | cons c cs ih =>
    have hc : c.isNonSingleton = true := hns c (List.mem_cons_self c cs)
    have hmap : (c :: cs).map FragCall.rank = c.rank :: cs.map FragCall.rank := rfl
    rw [hmap] at hord
    have hpair := List.chain'_cons'.mp hord
    have hadd := Selector.add_of_last_le s c.fmt c.kind
      (fun p hp => hfirst p hp c rfl)
    have hstep : applyCalls s (c :: cs) = applyCalls { s with
        selectors := s.selectors ++ [c.fmt],
        selectorsTypes := s.selectorsTypes ++ [c.rank] } cs := by
      rw [applyCalls, applyCall_nonsingleton s c hc, hadd]
      rfl
    rw [hstep, ih _ (fun d hd => hns d (List.mem_cons_of_mem c hd)) hpair.2 ?_]
    · simp
    · intro p hp d hd
      have hp' : c.rank = p := by
        simpa using hp
      have hmr : (cs.map FragCall.rank).head? = some d.rank := by
        rw [List.head?_map, Option.mem_def.mp hd]
        rfl
      rw [← hp']
      exact hpair.1 d.rank hmr

/-- Concrete builder state for exercising the ordering check: one appended
`id` fragment, so the last recorded rank is 10. -/
def c1builder : Selector :=
  { selectors := ["#main"],
    isIdExist := true,
    isElExist := false,
    isPseudoElExist := false,
    selectorsTypes := [10] }

/-- Claim C1: on a builder with at least one appended fragment (fragments and
ranks are pushed together by `add`, so the last entry of `selectorsTypes` is
the rank `p` of the most recently appended fragment), appending a fragment
whose kind's rank is strictly below `p` throws exactly `orderErrorMsg` and
carries the unchanged pre-call state, while a call whose rank is `≥ p`
succeeds and appends the fragment and its rank, leaving the singleton flags
untouched. -/
theorem add_order_enforcement (s : Selector) (val : String) (type : SelType) (p : Nat)
    (hp : s.selectorsTypes.getLast? = some p) :
    (selectorsWeight type < p → s.add val type = Except.error (orderErrorMsg, s)) ∧
    (p ≤ selectorsWeight type → s.add val type = Except.ok { s with
      selectors := s.selectors ++ [val],
      selectorsTypes := s.selectorsTypes ++ [selectorsWeight type] }) := by
  constructor
  · intro hlt
    exact Selector.add_of_lt s val type p hp hlt
  · intro hle
    apply Selector.add_of_last_le
    intro q hq
    have hq' := Option.mem_def.mp hq
    rw [hp] at hq'
    exact (Option.some.inj hq') ▸ hle

/-- Witness for C1: with last rank 10 (`id`), appending an `element` fragment
(rank 1) throws the ordering message with the state unchanged, and appending a
`class` fragment (rank 20) succeeds. -/
theorem add_order_enforcement_witness :
    c1builder.add ("div") SelType.element = Except.error (orderErrorMsg, c1builder) ∧
    c1builder.add (".x") SelType.cls = Except.ok
      { selectors := ["#main", ".x"],
        isIdExist := true,
        isElExist := false,
        isPseudoElExist := false,
        selectorsTypes := [10, 20] } :=
  ⟨(add_order_enforcement c1builder ("div") SelType.element 10 rfl).1 (by decide),
   (add_order_enforcement c1builder (".x") SelType.cls 10 rfl).2 (by decide)⟩

/-- Concrete builder state for exercising the duplicate check: all three
singleton flags set, last recorded rank 30 (`attribute`). -/
def c2builder : Selector :=
  { selectors := [".a"],
    isIdExist := true,
    isElExist := true,
    isPseudoElExist := true,
    selectorsTypes := [30] }

/-- Claim C2: when a singleton method's flag is set (the flag is set exactly
by a successful call of that method since the last render), calling that
method again throws exactly `duplicateErrorMsg` and carries the unchanged
pre-call state; `class`, `attr` and `pseudoClass` never throw the duplicate
message on any state (any error they throw is the ordering message). -/
theorem singleton_duplicate_enforcement (s : Selector) (v : String) :
    (s.isElExist = true → s.element v = Except.error (duplicateErrorMsg, s)) ∧
    (s.isIdExist = true → s.id v = Except.error (duplicateErrorMsg, s)) ∧
    (s.isPseudoElExist = true → s.pseudoElement v = Except.error (duplicateErrorMsg, s)) ∧
    (∀ e t, s.cls v = Except.error (e, t) → e ≠ duplicateErrorMsg) ∧
    (∀ e t, s.attr v = Except.error (e, t) → e ≠ duplicateErrorMsg) ∧
    (∀ e t, s.pseudoClass v = Except.error (e, t) → e ≠ duplicateErrorMsg) := by
  refine ⟨?_, ?_, ?_, ?_, ?_, ?_⟩
  · intro h
    simp [Selector.element, h]
  · intro h
    simp [Selector.id, h]
  · intro h
    simp [Selector.pseudoElement, h]
  · intro e t h
    rw [(Selector.add_error_msg _ _ _ _ _ h).1]
    decide
  · intro e t h
    rw [(Selector.add_error_msg _ _ _ _ _ h).1]
    decide
  · intro e t h
    rw [(Selector.add_error_msg _ _ _ _ _ h).1]
    decide

/-- Witness for C2: on a builder with all three singleton flags set, each
singleton method throws the duplicate message with the state unchanged, and a
`class` call that does fail (rank 20 after rank 30) fails with the ordering
message, which is not the duplicate message. -/
theorem singleton_duplicate_enforcement_witness :
    c2builder.element ("x") = Except.error (duplicateErrorMsg, c2builder) ∧
    c2builder.id ("x") = Except.error (duplicateErrorMsg, c2builder) ∧
    c2builder.pseudoElement ("x") = Except.error (duplicateErrorMsg, c2builder) ∧
    orderErrorMsg ≠ duplicateErrorMsg := by
  have h := singleton_duplicate_enforcement c2builder ("x")
  exact ⟨h.1 rfl, h.2.1 rfl, h.2.2.1 rfl,
    h.2.2.2.1 orderErrorMsg c2builder rfl⟩

/-- Claim C3: a sequence of `class`/`attr`/`pseudoClass` calls whose kind
ranks are non-decreasing, run on a fresh builder, succeeds, and `stringify`
returns exactly the concatenation in call order, with no separator, of the
formatted fragments (`'.' + v` for `class`, `'[' + v + ']'` for `attr`,
`':' + v` for `pseudoClass` — see `FragCall.fmt`). -/
theorem nonsingleton_calls_concat (calls : List FragCall)
    (hns : ∀ c ∈ calls, c.isNonSingleton = true)
    (hord : List.Chain' (fun a b => a ≤ b) (calls.map FragCall.rank)) :
    ∃ s, applyCalls SelectorElem.new calls = Except.ok s ∧
      s.stringify.1 = String.join (calls.map FragCall.fmt) := by
  refine ⟨_, applyCalls_nonsingleton calls SelectorElem.new hns hord ?_, ?_⟩
  · intro p hp
    simp [SelectorElem.new] at hp
  · simp [Selector.stringify, SelectorElem.new]

/-- Witness for C3: `class('container').attr('x').pseudoClass('focus')` on a
fresh builder renders `.container[x]:focus`. -/
theorem nonsingleton_calls_concat_witness :
    ∃ s, applyCalls SelectorElem.new
        [FragCall.cls ("container"), FragCall.attr ("x"), FragCall.pseudoClass ("focus")] =
      Except.ok s ∧ s.stringify.1 = ".container[x]:focus" := by
  obtain ⟨s, h1, h2⟩ := nonsingleton_calls_concat
    [FragCall.cls ("container"), FragCall.attr ("x"), FragCall.pseudoClass ("focus")]
    (by decide) (by simp [FragCall.rank, FragCall.kind, selectorsWeight])
  refine ⟨s, h1, ?_⟩
  rw [h2]
  rfl

/-- Computation of the builder component of `combine`: a fresh builder whose
single fragment is the composed string, recorded with the default rank 0. -/
theorem combine_fst (s1 : Selector) (comb : String) (s2 : Selector) :
    (cssSelectorBuilder.combine s1 comb s2).1 = Except.ok
      { selectors := [s1.stringify.1 ++ " " ++ comb ++ " " ++ s2.stringify.1],
        isIdExist := false,
        isElExist := false,
        isPseudoElExist := false,
        selectorsTypes := [0] } := rfl

/-- Claim C4: `combine` stringifies both operands (resetting each — the
operand components of its result are exactly the operands' post-`stringify`
states), and returns a builder whose `stringify` yields exactly
`stringify(a) ++ " " ++ c ++ " " ++ stringify(b)`, one space on each side of
the combinator whatever its content; the returned builder can itself be used
as either operand of a further `combine`. -/
theorem combine_composes (a : Selector) (c : String) (b : Selector) :
    ∃ r, (cssSelectorBuilder.combine a c b).1 = Except.ok r ∧
      r.stringify.1 = a.stringify.1 ++ " " ++ c ++ " " ++ b.stringify.1 ∧
      (cssSelectorBuilder.combine a c b).2.1 = a.stringify.2 ∧
      (cssSelectorBuilder.combine a c b).2.2 = b.stringify.2 ∧
      ∀ (d : Selector) (c2 : String),
        (∃ r2, (cssSelectorBuilder.combine r c2 d).1 = Except.ok r2 ∧
          r2.stringify.1 = r.stringify.1 ++ " " ++ c2 ++ " " ++ d.stringify.1) ∧
        (∃ r3, (cssSelectorBuilder.combine d c2 r).1 = Except.ok r3 ∧
          r3.stringify.1 = d.stringify.1 ++ " " ++ c2 ++ " " ++ r.stringify.1) := by
  refine ⟨_, combine_fst a c b, rfl, rfl, rfl, ?_⟩
  intro d c2
  exact ⟨⟨_, combine_fst _ c2 d, rfl⟩, ⟨_, combine_fst d c2 _, rfl⟩⟩

/-- Concrete state reached by `class('a')` on a fresh builder: one fragment
`.a`, one recorded rank 20. -/
def c5builder : Selector :=
  { selectors := [".a"],
    isIdExist := false,
    isElExist := false,
    isPseudoElExist := false,
    selectorsTypes := [20] }

/-- Counterexample to claim C5: after `class('a')` on a fresh builder the
recorded rank list is `[20]`; `stringify` clears the fragments and flags but
leaves the rank list equal to `[20]`, not the empty list the claim requires. -/
theorem stringify_keeps_ranks_cex :
    SelectorElem.new.cls ("a") = Except.ok c5builder ∧
    c5builder.stringify.2.selectorsTypes = [20] ∧
    c5builder.stringify.2.selectorsTypes ≠ [] :=
  ⟨rfl, rfl, by decide⟩

/-- Claim C5 as amended: `stringify` returns the concatenation of all
fragments in insertion order with no separator, and resets the fragment list
and the three singleton flags to empty/false, but leaves the rank list
`selectorsTypes` unchanged. -/
theorem stringify_resets_except_ranks (s : Selector) :
    s.stringify.1 = String.join s.selectors ∧
    s.stringify.2 = { selectors := [],
                      isIdExist := false,
                      isElExist := false,
                      isPseudoElExist := false,
                      selectorsTypes := s.selectorsTypes } :=
  ⟨rfl, rfl⟩

/-- Claim C6: after any `stringify()` call, a second `stringify()` with no
intervening fragment call returns the empty string (the first call cleared
the fragment list). -/
theorem stringify_twice_empty (s : Selector) :
    (s.stringify.2).stringify.1 = "" := rfl

/-- Rendered string of the nested `combine` expression of claim C7, chained
exactly as the claimed expression is. -/
def c7result : Except (String × Selector) String := do
  let a1 ← cssSelectorBuilder.element ("div")
  let a2 ← a1.id ("main")
  let a3 ← a2.cls ("container")
  let a4 ← a3.cls ("draggable")
  let t1 ← cssSelectorBuilder.element ("table")
  let t2 ← t1.id ("data")
  let r1 ← cssSelectorBuilder.element ("tr")
  let r2 ← r1.pseudoClass ("nth-of-type(even)")
  let d1 ← cssSelectorBuilder.element ("td")
  let d2 ← d1.pseudoClass ("nth-of-type(even)")
  let inner ← (cssSelectorBuilder.combine r2 (" ") d2).1
  let mid ← (cssSelectorBuilder.combine t2 ("~") inner).1
  let outer ← (cssSelectorBuilder.combine a4 ("+") mid).1
  pure outer.stringify.1

/-- Claim C7: the nested combinator expression renders exactly the documented
string, with three consecutive spaces around the nested descendant
combinator. -/
theorem nested_combine_example :
    c7result = Except.ok
      ("div#main.container.draggable + table#data ~ tr:nth-of-type(even)   td:nth-of-type(even)") :=
  rfl

/-- Rendered string of `element('a').attr('href$=".png"').pseudoClass('focus')`
started from the factory entry point. -/
def c8first : Except (String × Selector) String := do
  let s1 ← cssSelectorBuilder.element ("a")
  let s2 ← s1.attr ("href$=\".png\"")
  let s3 ← s2.pseudoClass ("focus")
  pure s3.stringify.1

/-- Rendered string of `id('main').class('container').class('editable')`
started from the factory entry point. -/
def c8second : Except (String × Selector) String := do
  let s1 ← cssSelectorBuilder.id ("main")
  let s2 ← s1.cls ("container")
  let s3 ← s2.cls ("editable")
  pure s3.stringify.1

/-- Claim C8: the factory entry points apply the per-kind sigils (bare value,
`#`, `.`, `[...]`, `:`), so the two documented examples render exactly as
stated. -/
theorem factory_sigil_examples :
    c8first = Except.ok ("a[href$=\".png\"]:focus") ∧
    c8second = Except.ok ("#main.container.editable") :=
  ⟨rfl, rfl⟩

/-- Claim C9: `stringify` does not reset the ordering history — after
`class('a').stringify()` the fragment list is empty, yet the recorded rank 20
persists, so `element('div')` on the reused builder throws the ordering
message even though no fragment is present. -/
theorem stringify_keeps_order_history :
    ∃ s1, SelectorElem.new.cls ("a") = Except.ok s1 ∧
      s1.stringify.2.selectors = [] ∧
      s1.stringify.2.element ("div") =
        Except.error (orderErrorMsg, s1.stringify.2) :=
  ⟨{ selectors := [".a"],
     isIdExist := false,
     isElExist := false,
     isPseudoElExist := false,
     selectorsTypes := [20] }, rfl, rfl, rfl⟩

/-- Claim C10: the builder returned by `combine` records its single combined
fragment with the default rank 0, the minimum weight, so each of the six
fragment methods can be chained onto it without an order or duplicate error,
and the rendered string is the combined string followed by the chained
formatted fragment (for `class('x')` the string ends in `.x`). -/
theorem combine_chainable (a : Selector) (c : String) (b : Selector) (f : FragCall) :
    ∃ r r2, (cssSelectorBuilder.combine a c b).1 = Except.ok r ∧
      r.selectorsTypes = [0] ∧
      applyCall r f = Except.ok r2 ∧
      r2.stringify.1 = a.stringify.1 ++ " " ++ c ++ " " ++ b.stringify.1 ++ f.fmt := by
  cases f <;> exact ⟨_, _, combine_fst a c b, rfl, rfl, rfl⟩
